import Mathlib

/-!
Verification of the gen-ai-chatbot-ui Streamlit client against its
natural-language specification.  The repository is a thin UI over a remote
HTTP API; the embedding below models its pure logic: configuration-derived
endpoint URLs (src/config.py), the uniform error translation of the HTTP
wrappers (src/api_client.py), the chat question handler and rendering
classification helpers (src/app.py), and the knowledge-base edit dialog
(src/pages/1_Knowledge_Base.py).  Network effects are modelled by an
explicit `HttpOutcome` value fed to each wrapper, and the question
handler records the list of network calls it issues.
-/

/-! ## Python string primitives

The Python string operations the sources use (`str.strip`,
`str.rstrip("/")`, `str.split(",")`) are embedded as structural
recursions on character lists so that every definition evaluates by
kernel reduction. -/

/-- Python `str.strip()`: drop leading and trailing whitespace. -/
def pyStrip (s : String) : String :=
  String.mk (((s.data.dropWhile Char.isWhitespace).reverse.dropWhile Char.isWhitespace).reverse)

/-- Python `str.rstrip("/")`: drop every trailing slash. -/
def pyRstripSlashes (s : String) : String :=
  String.mk ((s.data.reverse.dropWhile (· == '/')).reverse)

/-- Python `str.split(sep)` for a one-character separator: split on every
occurrence, keeping empty fields (`"".split(",") == [""]`,
`"a,,b".split(",") == ["a","","b"]`). -/
def splitOnChar (sep : Char) : List Char → List (List Char)
  | [] => [[]]
  | c :: t =>
    let rest := splitOnChar sep t
    if c == sep then [] :: rest
    else
      match rest with
      | [] => [[c]]
      | h :: t2 => (c :: h) :: t2

/-- Python `s.split(sep)` on strings. -/
def pySplit (sep : Char) (s : String) : List String :=
  (splitOnChar sep s.data).map String.mk

/-! ## Configuration (src/config.py) -/

/-- src/config.py: `MAX_QUESTION_LENGTH = 2000`. -/
def MAX_QUESTION_LENGTH : Nat := 2000

/-- src/config.py: `REQUEST_TIMEOUT = 30` seconds. -/
def REQUEST_TIMEOUT : Nat := 30

/-- src/config.py: `API_BASE_URL = os.environ.get("API_BASE_URL",
"http://localhost:8000").rstrip("/")`, as a function of the optional
environment value.  Python `rstrip("/")` removes every trailing slash. -/
def API_BASE_URL (env : Option String) : String :=
  pyRstripSlashes (env.getD "http://localhost:8000")

/-- src/config.py: `HEALTH_ENDPOINT = f"{API_BASE_URL}/health"`. -/
def HEALTH_ENDPOINT (env : Option String) : String :=
  API_BASE_URL env ++ "/health"

/-- src/config.py: `SERVICES_ENDPOINT = f"{API_BASE_URL}/api/v1/kb/services"`. -/
def SERVICES_ENDPOINT (env : Option String) : String :=
  API_BASE_URL env ++ "/api/v1/kb/services"

/-- src/config.py: `ASK_ENDPOINT = f"{API_BASE_URL}/api/v1/ask"`. -/
def ASK_ENDPOINT (env : Option String) : String :=
  API_BASE_URL env ++ "/api/v1/ask"

/-- Modelled from the spec: `KB_ENTRIES_ENDPOINT` is imported from
`config` by src/api_client.py but its definition is absent from the
src/config.py snapshot.  The spec (§6) says every endpoint is the base
URL followed by a fixed suffix, `/api/v1/kb/entries` for the entries
collection. -/
def KB_ENTRIES_ENDPOINT (env : Option String) : String :=
  API_BASE_URL env ++ "/api/v1/kb/entries"

/-- Modelled from the spec: `CLIENT_SIDE_ENTITIES` is imported from
`config` by src/app.py but its definition is absent from the
src/config.py snapshot.  The spec describes it only as "a fixed
client-side entity set" and gives `NRIC` as an example of a client-side
token; the classification results proved below depend only on
membership, not on the particular contents. -/
def CLIENT_SIDE_ENTITIES : List String := ["NRIC"]

/-! ## Data model (spec §3, consumed by src/app.py) -/

/-- Link: `{title, url, description}`. -/
structure Link where
  title : String
  url : String
  description : String
deriving DecidableEq, Repr

/-- Masking payload: `{original_query, masked_query, entities_masked}`. -/
structure Masking where
  original_query : String
  masked_query : String
  entities_masked : List String
deriving DecidableEq, Repr

/-- A content-filter score set as consumed by `_render_pipeline`
(src/app.py lines 377-409): every field is read with `dict.get` and a
default, so each is optional here. -/
structure ScoreSet where
  passed : Option Bool
  hate : Option ℚ
  self_harm : Option ℚ
  sexual : Option ℚ
  violence : Option ℚ
deriving DecidableEq, Repr

/-- Filtering payload: `{input, output}` score sets. -/
structure Filtering where
  input : ScoreSet
  output : ScoreSet
deriving DecidableEq, Repr

/-- LLM stats: `{model, prompt_tokens, completion_tokens}`. -/
structure LlmStats where
  model : String
  prompt_tokens : Nat
  completion_tokens : Nat
deriving DecidableEq, Repr

/-- Pipeline diagnostic payload; only the sections the verified claims
touch are modelled (`tool_calls` and `messages_to_llm` carry no logic
beyond direct display). -/
structure Pipeline where
  data_masking : Option Masking
  content_filtering : Option Filtering
  llm : Option LlmStats
deriving DecidableEq, Repr

/-- AskResponse: `{answer, confidence, is_sap_ai, services, links,
pipeline}`.  Confidence is modelled as a rational. -/
structure AskResponse where
  answer : String
  confidence : ℚ
  is_sap_ai : Bool
  services : List String
  links : List Link
  pipeline : Option Pipeline
deriving DecidableEq, Repr

/-- HistoryEntry: `{question, response, error}` as appended by
`_handle_question` (src/app.py lines 296-302). -/
structure HistoryEntry where
  question : String
  response : Option AskResponse
  error : Option String
deriving DecidableEq, Repr

/-- ServiceInfo: `{key, display_name, description, doc_count}`. -/
structure ServiceInfo where
  key : String
  display_name : String
  description : String
  doc_count : Nat
deriving DecidableEq, Repr

/-- Health-check success body: `{status, service, version}`. -/
structure HealthInfo where
  status : String
  service : String
  version : String
deriving DecidableEq, Repr

/-- KBEntry: `{id, service_key, title, url, description, tags}`. -/
structure KBEntry where
  id : String
  service_key : String
  title : String
  url : String
  description : String
  tags : List String
deriving DecidableEq, Repr

/-! ## API client (src/api_client.py) -/

/-- `APIError(message, status_code)`: the single error shape raised by
every wrapper; `str(exc)` is the message. -/
structure APIError where
  message : String
  status_code : Option Nat
deriving DecidableEq, Repr

/-- The outcome of one HTTP request, abstracting the `requests` library:
a successful 2xx JSON body, a connection error, a timeout, or a non-2xx
status (the branch that `raise_for_status` turns into `HTTPError`). -/
inductive HttpOutcome (α : Type) where
  | success (body : α)
  | connectionError
  | timeout
  | httpError (status : Nat)
deriving DecidableEq, Repr

/-- `check_health` (src/api_client.py lines 26-41): GET /health with its
error translation. -/
def check_health (o : HttpOutcome HealthInfo) : Except APIError HealthInfo :=
  match o with
  | .success body => .ok body
  | .connectionError => .error ⟨"Cannot connect to the API. Is the backend running?", none⟩
  | .timeout => .error ⟨"Health check timed out.", none⟩
  | .httpError status => .error ⟨s!"Health check failed: {status}", some status⟩

/-- `fetch_services` (src/api_client.py lines 43-57): GET
/api/v1/kb/services with its error translation. -/
def fetch_services (o : HttpOutcome (List ServiceInfo)) : Except APIError (List ServiceInfo) :=
  match o with
  | .success body => .ok body
  | .connectionError => .error ⟨"Cannot connect to the API. Is the backend running?", none⟩
  | .timeout => .error ⟨"Service list request timed out.", none⟩
  | .httpError status => .error ⟨s!"Failed to fetch services: {status}", some status⟩

/-- `fetch_kb_entries` (src/api_client.py lines 60-75): GET
/api/v1/kb/entries with its error translation. -/
def fetch_kb_entries (service : Option String) (o : HttpOutcome (List KBEntry)) :
    Except APIError (List KBEntry) :=
  match o with
  | .success body => .ok body
  | .connectionError => .error ⟨"Cannot connect to the API. Is the backend running?", none⟩
  | .timeout => .error ⟨"KB entries request timed out.", none⟩
  | .httpError status => .error ⟨s!"Failed to fetch KB entries: {status}", some status⟩

/-- `create_kb_entry` (src/api_client.py lines 78-92): POST
/api/v1/kb/entries with its error translation. -/
def create_kb_entry (o : HttpOutcome KBEntry) : Except APIError KBEntry :=
  match o with
  | .success body => .ok body
  | .connectionError => .error ⟨"Cannot connect to the API. Is the backend running?", none⟩
  | .timeout => .error ⟨"Create entry request timed out.", none⟩
  | .httpError status => .error ⟨s!"Failed to create entry: {status}", some status⟩

/-- `update_kb_entry` (src/api_client.py lines 95-111): PUT
/api/v1/kb/entries/{doc_id} with its error translation. -/
def update_kb_entry (doc_id : String) (o : HttpOutcome KBEntry) : Except APIError KBEntry :=
  match o with
  | .success body => .ok body
  | .connectionError => .error ⟨"Cannot connect to the API. Is the backend running?", none⟩
  | .timeout => .error ⟨"Update entry request timed out.", none⟩
  | .httpError status => .error ⟨s!"Failed to update entry: {status}", some status⟩

/-- `delete_kb_entry` (src/api_client.py lines 114-130): DELETE
/api/v1/kb/entries/{doc_id} with its error translation.  The success
body is an untyped confirmation dict; it is left abstract as a string
map key list is irrelevant here, so `KBEntry` is not reused. -/
def delete_kb_entry (doc_id : String) (o : HttpOutcome Unit) : Except APIError Unit :=
  match o with
  | .success body => .ok body
  | .connectionError => .error ⟨"Cannot connect to the API. Is the backend running?", none⟩
  | .timeout => .error ⟨"Delete entry request timed out.", none⟩
  | .httpError status => .error ⟨s!"Failed to delete entry: {status}", some status⟩

/-- `ask_question` (src/api_client.py lines 133-155): POST /api/v1/ask
with its error translation; its timeout message is the only one hinting
at backend load. -/
def ask_question (o : HttpOutcome AskResponse) : Except APIError AskResponse :=
  match o with
  | .success body => .ok body
  | .connectionError => .error ⟨"Cannot connect to the API. Is the backend running?", none⟩
  | .timeout => .error ⟨"The request timed out. The API may be under heavy load — please try again.", none⟩
  | .httpError status => .error ⟨s!"API error: {status}", some status⟩

/-- The request URL used by `update_kb_entry`:
`f"{KB_ENTRIES_ENDPOINT}/{doc_id}"` (src/api_client.py line 99). -/
def update_entry_url (env : Option String) (doc_id : String) : String :=
  KB_ENTRIES_ENDPOINT env ++ "/" ++ doc_id

/-- The request URL used by `delete_kb_entry`:
`f"{KB_ENTRIES_ENDPOINT}/{doc_id}"` (src/api_client.py line 118). -/
def delete_entry_url (env : Option String) (doc_id : String) : String :=
  KB_ENTRIES_ENDPOINT env ++ "/" ++ doc_id

/-- The message carried by an error result, `""` on success (Python
`str(exc)` returns the message given to `APIError.__init__`). -/
def errMsg {α : Type} : Except APIError α → String
  | .error e => e.message
  | .ok _ => ""

/-- Structural substring search on character lists: true when `pat`
occurs contiguously in the list. -/
def containsSub (pat : List Char) : List Char → Bool
  | [] => pat.isPrefixOf []
  | c :: t => pat.isPrefixOf (c :: t) || containsSub pat t

/-- True when the string mentions the word "load" (the load-related hint
of the ask-question timeout message). -/
def mentionsLoad (s : String) : Bool :=
  containsSub "load".data s.data

/-! ## Chat View helpers (src/app.py) -/

/-- The CSS class chosen by `_confidence_label` (src/app.py lines
236-242); only the span class (high / medium / low) of the rendered
label is modelled, the percent text is display formatting. -/
inductive ConfidenceClass where
  | high
  | medium
  | low
deriving DecidableEq, Repr

/-- `_confidence_label` (src/app.py lines 236-242): score ≥ 0.75 is
high, else score ≥ 0.45 is medium, else low. -/
def confidence_label (score : ℚ) : ConfidenceClass :=
  if score ≥ 0.75 then .high
  else if score ≥ 0.45 then .medium
  else .low

/-- `_score_severity_class` (src/app.py lines 245-251): the CSS class
for a content-filter score. -/
def score_severity_class (score : ℚ) : String :=
  if score < 0.3 then "score-safe"
  else if score < 0.6 then "score-caution"
  else "score-danger"

/-- How `_render_answer_card` (src/app.py lines 489-498) displays a
successful answer: `st.warning` when not is_sap_ai and confidence is
exactly 0, `st.info` when not is_sap_ai otherwise, plain answer text
when is_sap_ai. -/
inductive AnswerDisplay where
  | blockedWarning
  | offTopicInfo
  | normalAnswer
deriving DecidableEq, Repr

/-- The display-state branch of `_render_answer_card` (src/app.py lines
489-498). -/
def answer_display (data : AskResponse) : AnswerDisplay :=
  if data.is_sap_ai = false ∧ data.confidence = 0 then .blockedWarning
  else if data.is_sap_ai = false then .offTopicInfo
  else .normalAnswer

/-- `_render_pipeline` (src/app.py line 314): the entities shown in the
SAP-native "Entities masked" group, `[e for e in entities_masked if e
not in CLIENT_SIDE_ENTITIES]`. -/
def sap_entities (entities_masked : List String) : List String :=
  entities_masked.filter (fun e => !CLIENT_SIDE_ENTITIES.contains e)

/-- `_render_pipeline` (src/app.py line 315): the entities shown in the
"Custom filters" group, `[e for e in entities_masked if e in
CLIENT_SIDE_ENTITIES]`. -/
def custom_entities (entities_masked : List String) : List String :=
  entities_masked.filter (fun e => CLIENT_SIDE_ENTITIES.contains e)

/-- The content-filter category badges rendered by `_render_pipeline`
(src/app.py line 381): `categories = ["hate", "self_harm", "sexual",
"violence"]`. -/
inductive FilterCategory where
  | hate
  | self_harm
  | sexual
  | violence
deriving DecidableEq, Repr

/-- The raw optional value of one category in a score set, as read by
`scores.get(cat, 0)` before the default applies. -/
def category_field (s : ScoreSet) : FilterCategory → Option ℚ
  | .hate => s.hate
  | .self_harm => s.self_harm
  | .sexual => s.sexual
  | .violence => s.violence

/-- `_render_pipeline` (src/app.py line 401): `score = scores.get(cat,
0)` — a missing category counts as 0. -/
def category_score (s : ScoreSet) (c : FilterCategory) : ℚ :=
  (category_field s c).getD 0

/-- `_render_pipeline` (src/app.py lines 389-391): `passed =
scores.get("passed", True)` then "Passed"/"Blocked" status text. -/
def filter_status_text (s : ScoreSet) : String :=
  if s.passed.getD true then "Passed" else "Blocked"

/-- The user-visible result of one `_handle_question` run (src/app.py
lines 288-302): the too-long warning, or a history append recording a
success or an error. -/
inductive HandleOutcome where
  | lengthWarning
  | appendedSuccess
  | appendedError
deriving DecidableEq, Repr

/-- The state produced by `_handle_question`: the session history after
the run, the visible outcome, and the list of `(question,
show_pipeline)` ask-question network calls issued during the run. -/
structure HandleResult where
  history : List HistoryEntry
  outcome : HandleOutcome
  network_calls : List (String × Bool)
deriving DecidableEq, Repr

/-- `_handle_question` (src/app.py lines 288-302): rejects questions
longer than `MAX_QUESTION_LENGTH` with a warning before any network
call; otherwise calls `ask_question` once and appends a history entry —
`{question, response, error: None}` on success, `{question, response:
None, error: str(exc)}` on `APIError`.  The network outcome of the
single call is the `outcome` argument. -/
def handle_question (question : String) (show_pipeline : Bool)
    (outcome : HttpOutcome AskResponse) (history : List HistoryEntry) : HandleResult :=
  if question.length > MAX_QUESTION_LENGTH then
    ⟨history, .lengthWarning, []⟩
  else
    match ask_question outcome with
    | .ok response =>
        ⟨history ++ [⟨question, some response, none⟩], .appendedSuccess,
          [(question, show_pipeline)]⟩
    | .error exc =>
        ⟨history ++ [⟨question, none, some exc.message⟩], .appendedError,
          [(question, show_pipeline)]⟩

/-! ## Knowledge Base edit dialog (src/pages/1_Knowledge_Base.py) -/

/-- Tag parsing shared by the add and edit dialogs
(src/pages/1_Knowledge_Base.py lines 106 and 136): `[t.strip() for t in
tags_raw.split(",") if t.strip()] if tags_raw else []`. -/
def parse_tags (tags_raw : String) : List String :=
  if tags_raw = "" then []
  else ((pySplit ',' tags_raw).map pyStrip).filter (· ≠ "")

/-- The partial update payload built by `_edit_entry_dialog`
(src/pages/1_Knowledge_Base.py lines 137-145): a dict holding only the
fields that were added, modelled as one optional slot per possible
field. -/
structure UpdatePayload where
  title : Option String
  url : Option String
  description : Option String
  tags : Option (List String)
deriving DecidableEq, Repr

/-- `_edit_entry_dialog` lines 137-145: each field is added to `updates`
exactly when its trimmed (for tags: parsed) form value differs from the
original entry's value. -/
def edit_updates (entry : KBEntry) (title url description tags_raw : String) : UpdatePayload :=
  { title := if pyStrip title ≠ entry.title then some (pyStrip title) else none
    url := if pyStrip url ≠ entry.url then some (pyStrip url) else none
    description :=
      if pyStrip description ≠ entry.description then some (pyStrip description) else none
    tags := if parse_tags tags_raw ≠ entry.tags then some (parse_tags tags_raw) else none }

/-- Python `if not updates:` — true when no field was added. -/
def UpdatePayload.isEmpty (u : UpdatePayload) : Bool :=
  u.title.isNone && u.url.isNone && u.description.isNone && u.tags.isNone

/-- What one press of "Save Changes" in `_edit_entry_dialog` does
(src/pages/1_Knowledge_Base.py lines 132-155). -/
inductive EditOutcome where
  | titleRequired
  | noChanges
  | updateCalled (doc_id : String) (updates : UpdatePayload)
deriving DecidableEq, Repr

/-- `_edit_entry_dialog` submission (src/pages/1_Knowledge_Base.py lines
132-155): an empty trimmed title is rejected, an empty update payload is
reported as "No changes detected." without calling `update_kb_entry`,
and otherwise `update_kb_entry(entry["id"], updates)` is called. -/
def edit_entry_submit (entry : KBEntry) (title url description tags_raw : String) : EditOutcome :=
  if pyStrip title = "" then .titleRequired
  else
    let u := edit_updates entry title url description tags_raw
    if u.isEmpty then .noChanges
    else .updateCalled entry.id u

/-! ## Claims -/

/-- Claim C1: for every question submission whose ask-question call
raises an APIError, the Chat View appends to the session history exactly
one new entry whose question field is the submitted question, whose
error field is the error's message, and whose response field is null;
the history length increases by exactly 1 and previously appended
entries are unchanged.  (The length bound hypothesis expresses that a
submission whose call raises went past the client-side length check.) -/
theorem handle_question_api_error_appends_one_entry
    (question : String) (show_pipeline : Bool) (outcome : HttpOutcome AskResponse)
    (history : List HistoryEntry) (e : APIError)
    (hlen : question.length ≤ MAX_QUESTION_LENGTH)
    (herr : ask_question outcome = .error e) :
    (handle_question question show_pipeline outcome history).history
        = history ++ [⟨question, none, some e.message⟩]
    ∧ (handle_question question show_pipeline outcome history).history.length
        = history.length + 1
    ∧ (handle_question question show_pipeline outcome history).history.take history.length
        = history := by
  have hnot : ¬ question.length > MAX_QUESTION_LENGTH := Nat.not_lt.mpr hlen
  refine ⟨?_, ?_, ?_⟩ <;> simp [handle_question, hnot, herr, List.take_left]

/-- Witness for C1: a backend returning HTTP 500 for the ask call makes
the handler append exactly the error entry. -/
theorem handle_question_api_error_appends_one_entry_witness :
    (handle_question "q" false (.httpError 500) []).history
      = [⟨"q", none, some "API error: 500"⟩]
    ∧ (handle_question "q" false (.httpError 500) []).history.length = 0 + 1 :=
  ⟨(handle_question_api_error_appends_one_entry "q" false (.httpError 500) []
      ⟨"API error: 500", some 500⟩ (by decide) rfl).1,
   (handle_question_api_error_appends_one_entry "q" false (.httpError 500) []
      ⟨"API error: 500", some 500⟩ (by decide) rfl).2.1⟩

/-- Claim C2: an entity name in the masked-entities list is rendered in
the "custom filter" visual group iff it belongs to the fixed
client-side-entity set, in the "SAP-native" group iff it does not, and
every listed entity appears in exactly one of the two groups. -/
theorem entity_groups_partition (entities : List String) (e : String) :
    (e ∈ custom_entities entities ↔ e ∈ entities ∧ e ∈ CLIENT_SIDE_ENTITIES)
    ∧ (e ∈ sap_entities entities ↔ e ∈ entities ∧ e ∉ CLIENT_SIDE_ENTITIES)
    ∧ (e ∈ entities →
        (e ∈ custom_entities entities ∧ e ∉ sap_entities entities)
        ∨ (e ∈ sap_entities entities ∧ e ∉ custom_entities entities)) := by
  have hcu : e ∈ custom_entities entities ↔ e ∈ entities ∧ e ∈ CLIENT_SIDE_ENTITIES := by
    simp [custom_entities, List.mem_filter]
  have hsa : e ∈ sap_entities entities ↔ e ∈ entities ∧ e ∉ CLIENT_SIDE_ENTITIES := by
    simp [sap_entities, List.mem_filter]
  refine ⟨hcu, hsa, fun he => ?_⟩
  by_cases hc : e ∈ CLIENT_SIDE_ENTITIES
  · exact Or.inl ⟨hcu.mpr ⟨he, hc⟩, fun hmem => (hsa.mp hmem).2 hc⟩
  · exact Or.inr ⟨hsa.mpr ⟨he, hc⟩, fun hmem => hc (hcu.mp hmem).2⟩

/-- Witness for C2: a client-side entity in a concrete payload lands in
exactly one group, the custom one. -/
theorem entity_groups_partition_witness :
    ("NRIC" ∈ custom_entities ["EMAIL", "NRIC"] ∧ "NRIC" ∉ sap_entities ["EMAIL", "NRIC"])
    ∨ ("NRIC" ∈ sap_entities ["EMAIL", "NRIC"] ∧ "NRIC" ∉ custom_entities ["EMAIL", "NRIC"]) :=
  (entity_groups_partition ["EMAIL", "NRIC"] "NRIC").2.2 (by decide)

/-- Claim C3: for every configured base URL, every endpoint URL used by
the API client is the base URL followed by its fixed suffix: /health,
/api/v1/kb/services, /api/v1/kb/entries, /api/v1/kb/entries/{id} for
update and delete, and /api/v1/ask; the default base URL is
http://localhost:8000. -/
theorem endpoints_are_base_plus_fixed_suffix (env : Option String) (doc_id : String) :
    HEALTH_ENDPOINT env = API_BASE_URL env ++ "/health"
    ∧ SERVICES_ENDPOINT env = API_BASE_URL env ++ "/api/v1/kb/services"
    ∧ KB_ENTRIES_ENDPOINT env = API_BASE_URL env ++ "/api/v1/kb/entries"
    ∧ update_entry_url env doc_id = API_BASE_URL env ++ "/api/v1/kb/entries/" ++ doc_id
    ∧ delete_entry_url env doc_id = API_BASE_URL env ++ "/api/v1/kb/entries/" ++ doc_id
    ∧ ASK_ENDPOINT env = API_BASE_URL env ++ "/api/v1/ask"
    ∧ API_BASE_URL none = "http://localhost:8000" := by
  refine ⟨rfl, rfl, rfl, ?_, ?_, rfl, rfl⟩
  all_goals
    simp [update_entry_url, delete_entry_url, KB_ENTRIES_ENDPOINT, String.append_assoc]

/-- Claim C4: for every edit-dialog submission whose trimmed title is
non-empty, the update payload contains exactly the fields (among title,
url, description, tags) whose trimmed or parsed form value differs from
the original entry; if nothing differs the update operation is not
called and a no-op is reported; if only the title differs the payload is
exactly the new trimmed title. -/
theorem edit_dialog_sends_exactly_changed_fields
    (entry : KBEntry) (title url description tags_raw : String)
    (h : pyStrip title ≠ "") :
    ((edit_updates entry title url description tags_raw).title ≠ none ↔ pyStrip title ≠ entry.title)
    ∧ ((edit_updates entry title url description tags_raw).url ≠ none ↔ pyStrip url ≠ entry.url)
    ∧ ((edit_updates entry title url description tags_raw).description ≠ none
        ↔ pyStrip description ≠ entry.description)
    ∧ ((edit_updates entry title url description tags_raw).tags ≠ none
        ↔ parse_tags tags_raw ≠ entry.tags)
    ∧ (∀ v, (edit_updates entry title url description tags_raw).title = some v → v = pyStrip title)
    ∧ (∀ v, (edit_updates entry title url description tags_raw).url = some v → v = pyStrip url)
    ∧ (∀ v, (edit_updates entry title url description tags_raw).description = some v
        → v = pyStrip description)
    ∧ (∀ v, (edit_updates entry title url description tags_raw).tags = some v
        → v = parse_tags tags_raw)
    ∧ (pyStrip title = entry.title ∧ pyStrip url = entry.url
        ∧ pyStrip description = entry.description ∧ parse_tags tags_raw = entry.tags →
        edit_entry_submit entry title url description tags_raw = .noChanges)
    ∧ (pyStrip title ≠ entry.title ∧ pyStrip url = entry.url
        ∧ pyStrip description = entry.description ∧ parse_tags tags_raw = entry.tags →
        edit_entry_submit entry title url description tags_raw
          = .updateCalled entry.id ⟨some (pyStrip title), none, none, none⟩) := by
  by_cases h1 : pyStrip title = entry.title <;> by_cases h2 : pyStrip url = entry.url <;>
    by_cases h3 : pyStrip description = entry.description <;>
    by_cases h4 : parse_tags tags_raw = entry.tags <;>
    simp [edit_updates, edit_entry_submit, UpdatePayload.isEmpty, h, h1, h2, h3, h4] <;>
    simp_all

/-- Witness for C4: editing only the title of a concrete entry sends a
payload holding exactly the new trimmed title. -/
theorem edit_dialog_sends_exactly_changed_fields_witness :
    pyStrip " New title " ≠ "" ∧
    edit_entry_submit ⟨"id1", "svc", "Old title", "u", "d", ["x"]⟩ " New title " "u" "d" "x"
      = .updateCalled "id1" ⟨some "New title", none, none, none⟩ :=
  ⟨by decide,
   (edit_dialog_sends_exactly_changed_fields ⟨"id1", "svc", "Old title", "u", "d", ["x"]⟩
      " New title " "u" "d" "x" (by decide)).2.2.2.2.2.2.2.2.2
     ⟨by decide, by decide, by decide, by decide⟩⟩

/-- Claim C5: a submitted question longer than MAX_QUESTION_LENGTH
(2000 characters) issues no network call and produces the length-warning
state. -/
theorem overlong_question_no_network_call
    (question : String) (show_pipeline : Bool) (outcome : HttpOutcome AskResponse)
    (history : List HistoryEntry)
    (h : question.length > MAX_QUESTION_LENGTH) :
    (handle_question question show_pipeline outcome history).network_calls = []
    ∧ (handle_question question show_pipeline outcome history).outcome = .lengthWarning := by
  simp [handle_question, h]

/-- Witness for C5: a 2001-character question triggers the warning with
no network call. -/
theorem overlong_question_no_network_call_witness :
    (handle_question (String.mk (List.replicate 2001 'a')) false (.httpError 500) []).network_calls = []
    ∧ (handle_question (String.mk (List.replicate 2001 'a')) false (.httpError 500) []).outcome
        = .lengthWarning :=
  overlong_question_no_network_call _ false (.httpError 500) [] (by
    show (List.replicate 2001 'a').length > 2000
    rw [List.length_replicate]
    omega)

/-- Claim C6: the confidence label is "high" iff the score is at least
0.75, "medium" iff it is at least 0.45 and below 0.75, and "low" iff it
is below 0.45; the three cases are exhaustive and mutually exclusive. -/
theorem confidence_label_thresholds (c : ℚ) :
    (confidence_label c = .high ↔ 0.75 ≤ c)
    ∧ (confidence_label c = .medium ↔ 0.45 ≤ c ∧ c < 0.75)
    ∧ (confidence_label c = .low ↔ c < 0.45) := by
  unfold confidence_label
  split_ifs with h1 h2 <;> refine ⟨?_, ?_, ?_⟩ <;> simp_all <;> linarith

/-- Claim C7: a successful answer is rendered as a blocked warning iff
is_sap_ai is false and confidence is exactly 0, as off-topic info iff
is_sap_ai is false and confidence is nonzero, and as a normal answer iff
is_sap_ai is true; the blocked and off-topic states never coincide. -/
theorem answer_display_states (data : AskResponse) :
    (answer_display data = .blockedWarning ↔ data.is_sap_ai = false ∧ data.confidence = 0)
    ∧ (answer_display data = .offTopicInfo ↔ data.is_sap_ai = false ∧ data.confidence ≠ 0)
    ∧ (answer_display data = .normalAnswer ↔ data.is_sap_ai = true) := by
  unfold answer_display
  cases hb : data.is_sap_ai <;> by_cases hc : data.confidence = 0 <;> simp [hb, hc]

/-- Claim C8: the ask-question timeout message carries a load-related
hint while the timeout messages of the other six operations do not, and
all seven timeout messages are pairwise distinct. -/
theorem ask_timeout_message_distinct_load_hint :
    mentionsLoad (errMsg (ask_question .timeout)) = true
    ∧ mentionsLoad (errMsg (check_health .timeout)) = false
    ∧ mentionsLoad (errMsg (fetch_services .timeout)) = false
    ∧ mentionsLoad (errMsg (fetch_kb_entries none .timeout)) = false
    ∧ mentionsLoad (errMsg (create_kb_entry .timeout)) = false
    ∧ mentionsLoad (errMsg (update_kb_entry "d" .timeout)) = false
    ∧ mentionsLoad (errMsg (delete_kb_entry "d" .timeout)) = false
    ∧ [errMsg (ask_question .timeout), errMsg (check_health .timeout),
       errMsg (fetch_services .timeout), errMsg (fetch_kb_entries none .timeout),
       errMsg (create_kb_entry .timeout), errMsg (update_kb_entry "d" .timeout),
       errMsg (delete_kb_entry "d" .timeout)].Nodup := by
  refine ⟨rfl, rfl, rfl, rfl, rfl, rfl, rfl, ?_⟩
  decide

/-- Claim C9: a question longer than MAX_QUESTION_LENGTH leaves the
session history completely unchanged. -/
theorem overlong_question_history_unchanged
    (question : String) (show_pipeline : Bool) (outcome : HttpOutcome AskResponse)
    (history : List HistoryEntry)
    (h : question.length > MAX_QUESTION_LENGTH) :
    (handle_question question show_pipeline outcome history).history = history := by
  simp [handle_question, h]

/-- Witness for C9: a 2001-character question leaves a concrete
one-entry history intact. -/
theorem overlong_question_history_unchanged_witness :
    (handle_question (String.mk (List.replicate 2001 'b')) true .timeout
        [⟨"p", none, some "earlier"⟩]).history = [⟨"p", none, some "earlier"⟩] :=
  overlong_question_history_unchanged _ true .timeout [⟨"p", none, some "earlier"⟩] (by
    show (List.replicate 2001 'b').length > 2000
    rw [List.length_replicate]
    omega)

/-- Claim C10: a score set missing the passed field shows status
"Passed"; a missing category score counts as 0 and is bucketed
"score-safe"; a present score is bucketed "score-safe" iff it is below
0.3, "score-caution" iff it is at least 0.3 and below 0.6, and
"score-danger" iff it is at least 0.6. -/
theorem content_filter_defaults_and_severity (s : ScoreSet) :
    (s.passed = none → filter_status_text s = "Passed")
    ∧ (∀ c, category_field s c = none →
        category_score s c = 0
        ∧ score_severity_class (category_score s c) = "score-safe")
    ∧ (∀ q : ℚ, (score_severity_class q = "score-safe" ↔ q < 0.3)
        ∧ (score_severity_class q = "score-caution" ↔ 0.3 ≤ q ∧ q < 0.6)
        ∧ (score_severity_class q = "score-danger" ↔ 0.6 ≤ q)) := by
  refine ⟨fun hp => by simp [filter_status_text, hp], fun c hc => ?_, fun q => ?_⟩
  · have h0 : category_score s c = 0 := by simp [category_score, hc]
    refine ⟨h0, ?_⟩
    rw [h0]
    unfold score_severity_class
    rw [if_pos (by norm_num)]
  · unfold score_severity_class
    split_ifs with h1 h2
    · exact ⟨iff_of_true rfl h1,
        iff_of_false (by decide) (fun hq => absurd h1 (not_lt.mpr hq.1)),
        iff_of_false (by decide) (fun hq => absurd h1 (not_lt.mpr (by linarith)))⟩
    · exact ⟨iff_of_false (by decide) (fun hq => h1 hq),
        iff_of_true rfl ⟨not_lt.mp h1, h2⟩,
        iff_of_false (by decide) (fun hq => absurd h2 (not_lt.mpr hq))⟩
    · exact ⟨iff_of_false (by decide) (fun hq => h1 hq),
        iff_of_false (by decide) (fun hq => h2 hq.2),
        iff_of_true rfl (not_lt.mp h2)⟩

/-- Witness for C10: the all-missing score set shows "Passed" and its
hate score defaults to the safe bucket. -/
theorem content_filter_defaults_and_severity_witness :
    filter_status_text ⟨none, none, none, none, none⟩ = "Passed"
    ∧ category_score ⟨none, none, none, none, none⟩ .hate = 0
    ∧ score_severity_class (category_score ⟨none, none, none, none, none⟩ .hate) = "score-safe" :=
  ⟨(content_filter_defaults_and_severity ⟨none, none, none, none, none⟩).1 rfl,
   ((content_filter_defaults_and_severity ⟨none, none, none, none, none⟩).2.1 .hate rfl).1,
   ((content_filter_defaults_and_severity ⟨none, none, none, none, none⟩).2.1 .hate rfl).2⟩
